import Mathlib

set_option linter.unnecessarySeqFocus false
set_option linter.unreachableTactic false
set_option linter.unusedTactic false

/-!
Shallow embedding of the banking model of the repository
`Lucadecastro/trilha-python-dio`, as implemented in
`02 - Programação Orientada a Objetos/10 - desafio/desafio_v1.py` (namespace
prefix `Oop`) and `04 - Data e hora/desafio/desafio_v1.py` (namespace prefix
`Dh`).  The two files share the same data model (Cliente, Conta, Historico,
Saque, Deposito); they differ only in the order of the two guards inside
`Conta.sacar`, so the shared structures are defined once and the two versions
of `sacar` are embedded separately.  Monetary values are embedded as `Int`;
timestamps (`datetime.now()`) are passed in as an explicit `String` parameter.
Success/failure messages printed by the Python code are embedded as an
`Option MotivoFalha` result, with `none` standing for the success path; the
`Bool` return value of the Python method is its `Option.isNone`.
-/

namespace Banking

/-- A customer (`Cliente.__init__`): holds an address.  The account list and
the `PessoaFisica` identity fields play no role in the account operations, so
only the address field is carried. -/
structure Cliente where
  endereco : String
deriving DecidableEq

/-- One entry of a `Historico`, as built by `Historico.adicionar_transacao`:
a dict with keys `tipo` (the transaction class name), `valor` and `data`
(the formatted timestamp). -/
structure EntradaHistorico where
  tipo : String
  valor : Int
  data : String
deriving DecidableEq

/-- `Historico`: the append-only list `_transacoes`. -/
structure Historico where
  transacoes : List EntradaHistorico
deriving DecidableEq

/-- `Historico.__init__`: the empty transaction list. -/
def Historico.vazio : Historico := ⟨[]⟩

/-- `Historico.adicionar_transacao`: appends one entry built from the
transaction's class name, its value and the current timestamp (the timestamp
is an explicit argument here). -/
def Historico.adicionar_transacao (h : Historico) (tipo : String) (valor : Int)
    (data : String) : Historico :=
  ⟨h.transacoes ++ [⟨tipo, valor, data⟩]⟩

/-- `Conta`: balance, number, branch code, owning customer and history. -/
structure Conta where
  saldo : Int
  numero : Int
  agencia : String
  cliente : Cliente
  historico : Historico
deriving DecidableEq

/-- `Conta.AGENCIA_PADRAO` of the Oop file; the Dh file writes the literal
string inline in `Conta.__init__`. Both are the same value. -/
def agenciaPadrao : String := "0001"

/-- `Conta.__init__(numero, cliente)`: balance 0, branch code 0001, fresh
empty history. Identical in both files. -/
def Conta.init (numero : Int) (cliente : Cliente) : Conta :=
  { saldo := 0
    numero := numero
    agencia := agenciaPadrao
    cliente := cliente
    historico := Historico.vazio }

/-- `Conta.nova_conta(cls, cliente, numero)`: `cls(numero, cliente)`. -/
def Conta.nova_conta (cliente : Cliente) (numero : Int) : Conta :=
  Conta.init numero cliente

/-- `Conta.depositar(valor)`: rejects `valor <= 0`, otherwise adds the value
to the balance. Identical in both files; the history field is untouched. -/
def Conta.depositar (c : Conta) (valor : Int) : Bool × Conta :=
  if valor ≤ 0 then (false, c)
  else (true, { c with saldo := c.saldo + valor })

/-- The distinct failure messages printed by `sacar`, one constructor per
`print` branch. -/
inductive MotivoFalha where
  | valorInvalido
  | saldoInsuficiente
  | limiteExcedido
  | saquesExcedidos
deriving DecidableEq

/-- `Conta.sacar` of the Oop file: checks `valor <= 0` first, then
`valor > self._saldo`, then debits. -/
def Oop.Conta.sacarEx (c : Conta) (valor : Int) : Option MotivoFalha × Conta :=
  if valor ≤ 0 then (some MotivoFalha.valorInvalido, c)
  else if valor > c.saldo then (some MotivoFalha.saldoInsuficiente, c)
  else (none, { c with saldo := c.saldo - valor })

/-- The `Bool` returned by the Oop `Conta.sacar`. -/
def Oop.Conta.sacar (c : Conta) (valor : Int) : Bool × Conta :=
  ((Oop.Conta.sacarEx c valor).1.isNone, (Oop.Conta.sacarEx c valor).2)

/-- `Conta.sacar` of the Dh file: checks `valor > self.saldo` first, then
`valor <= 0`, then debits. -/
def Dh.Conta.sacarEx (c : Conta) (valor : Int) : Option MotivoFalha × Conta :=
  if valor > c.saldo then (some MotivoFalha.saldoInsuficiente, c)
  else if valor ≤ 0 then (some MotivoFalha.valorInvalido, c)
  else (none, { c with saldo := c.saldo - valor })

/-- The `Bool` returned by the Dh `Conta.sacar`. -/
def Dh.Conta.sacar (c : Conta) (valor : Int) : Bool × Conta :=
  ((Dh.Conta.sacarEx c valor).1.isNone, (Dh.Conta.sacarEx c valor).2)

/-- `ContaCorrente`: a `Conta` plus the per-withdrawal limit (`limite`,
default 500) and the maximum number of withdrawals (`limite_saques`,
default 3). -/
structure ContaCorrente where
  conta : Conta
  limite : Int
  limite_saques : Nat
deriving DecidableEq

/-- `ContaCorrente.__init__(numero, cliente, limite, limite_saques)`:
`super().__init__` plus the two limit fields. Identical in both files. -/
def ContaCorrente.init (numero : Int) (cliente : Cliente) (limite : Int)
    (limite_saques : Nat) : ContaCorrente :=
  { conta := Conta.init numero cliente
    limite := limite
    limite_saques := limite_saques }

/-- `ContaCorrente.nova_conta` of the Dh file: `cls(numero, cliente, limite,
limite_saques)`. (The Oop file inherits `Conta.nova_conta`, which calls the
same constructor with the default limits.) -/
def ContaCorrente.nova_conta (cliente : Cliente) (numero : Int) (limite : Int)
    (limite_saques : Nat) : ContaCorrente :=
  ContaCorrente.init numero cliente limite limite_saques

/-- The `numero_saques` computation inside `ContaCorrente.sacar`: the number
of history entries whose `tipo` is `"Saque"` (`Saque.__name__`). Both files
compute the same count (one with `sum(1 for ...)`, one with `len([...])`). -/
def numero_saques (h : Historico) : Nat :=
  (h.transacoes.filter (fun t => t.tipo = "Saque")).length

/-- `ContaCorrente.sacar` of the Oop file: limit check first, then the
withdrawal-count check, then `super().sacar(valor)`. -/
def Oop.ContaCorrente.sacarEx (cc : ContaCorrente) (valor : Int) :
    Option MotivoFalha × ContaCorrente :=
  if valor > cc.limite then (some MotivoFalha.limiteExcedido, cc)
  else if numero_saques cc.conta.historico ≥ cc.limite_saques then
    (some MotivoFalha.saquesExcedidos, cc)
  else
    ((Oop.Conta.sacarEx cc.conta valor).1,
      { cc with conta := (Oop.Conta.sacarEx cc.conta valor).2 })

/-- The `Bool` returned by the Oop `ContaCorrente.sacar`. -/
def Oop.ContaCorrente.sacar (cc : ContaCorrente) (valor : Int) :
    Bool × ContaCorrente :=
  ((Oop.ContaCorrente.sacarEx cc valor).1.isNone,
    (Oop.ContaCorrente.sacarEx cc valor).2)

/-- `ContaCorrente.sacar` of the Dh file: same limit and count checks, then
the Dh `super().sacar(valor)`. -/
def Dh.ContaCorrente.sacarEx (cc : ContaCorrente) (valor : Int) :
    Option MotivoFalha × ContaCorrente :=
  if valor > cc.limite then (some MotivoFalha.limiteExcedido, cc)
  else if numero_saques cc.conta.historico ≥ cc.limite_saques then
    (some MotivoFalha.saquesExcedidos, cc)
  else
    ((Dh.Conta.sacarEx cc.conta valor).1,
      { cc with conta := (Dh.Conta.sacarEx cc.conta valor).2 })

/-- The `Bool` returned by the Dh `ContaCorrente.sacar`. -/
def Dh.ContaCorrente.sacar (cc : ContaCorrente) (valor : Int) :
    Bool × ContaCorrente :=
  ((Dh.ContaCorrente.sacarEx cc valor).1.isNone,
    (Dh.ContaCorrente.sacarEx cc valor).2)

/-- `depositar` called on a `ContaCorrente` instance: the method is inherited
unchanged from `Conta`, acting on the embedded account state. -/
def ContaCorrente.depositar (cc : ContaCorrente) (valor : Int) :
    Bool × ContaCorrente :=
  ((Conta.depositar cc.conta valor).1,
    { cc with conta := (Conta.depositar cc.conta valor).2 })

/-- `Saque.__init__(valor)`: stores the value unconditionally; the `valor`
property returns it. -/
structure Saque where
  valor : Int
deriving DecidableEq

/-- `Deposito.__init__(valor)`: stores the value unconditionally; the `valor`
property returns it. -/
structure Deposito where
  valor : Int
deriving DecidableEq

/-- `Saque.registrar(conta)` with the Oop dispatch target
`ContaCorrente.sacar` (the only account class the program instantiates):
on success appends a `"Saque"` entry to the history, otherwise leaves the
account as `sacar` left it. -/
def Oop.Saque.registrar (s : Saque) (cc : ContaCorrente) (data : String) :
    ContaCorrente :=
  match Oop.ContaCorrente.sacar cc s.valor with
  | (true, cc2) =>
    { cc2 with conta := { cc2.conta with historico :=
        (Historico.adicionar_transacao cc2.conta.historico "Saque" s.valor data) } }
  | (false, cc2) => cc2

/-- `Saque.registrar(conta)` with the Dh dispatch target. -/
def Dh.Saque.registrar (s : Saque) (cc : ContaCorrente) (data : String) :
    ContaCorrente :=
  match Dh.ContaCorrente.sacar cc s.valor with
  | (true, cc2) =>
    { cc2 with conta := { cc2.conta with historico :=
        (Historico.adicionar_transacao cc2.conta.historico "Saque" s.valor data) } }
  | (false, cc2) => cc2

/-- `Deposito.registrar(conta)`: `depositar` is not overridden, so the same
definition serves both files: on success appends a `"Deposito"` entry. -/
def Deposito.registrar (d : Deposito) (cc : ContaCorrente) (data : String) :
    ContaCorrente :=
  match ContaCorrente.depositar cc d.valor with
  | (true, cc2) =>
    { cc2 with conta := { cc2.conta with historico :=
        (Historico.adicionar_transacao cc2.conta.historico "Deposito" d.valor data) } }
  | (false, cc2) => cc2

/-- The two kinds of transaction value the program constructs and hands to
`Cliente.realizar_transacao`. -/
inductive TransacaoBancaria where
  | saque (s : Saque)
  | deposito (d : Deposito)
deriving DecidableEq

/-- `Cliente.realizar_transacao(conta, transacao)` in the Oop file:
`transacao.registrar(conta)`. -/
def Oop.realizar_transacao (cc : ContaCorrente) (t : TransacaoBancaria)
    (data : String) : ContaCorrente :=
  match t with
  | TransacaoBancaria.saque s => Oop.Saque.registrar s cc data
  | TransacaoBancaria.deposito d => Deposito.registrar d cc data

/-- `Cliente.realizar_transacao(conta, transacao)` in the Dh file. -/
def Dh.realizar_transacao (cc : ContaCorrente) (t : TransacaoBancaria)
    (data : String) : ContaCorrente :=
  match t with
  | TransacaoBancaria.saque s => Dh.Saque.registrar s cc data
  | TransacaoBancaria.deposito d => Deposito.registrar d cc data

/-- The menu loop of the Oop file applied to one account: each user action
constructs a transaction and runs it through `realizar_transacao`, one at a
time, each with its own timestamp. -/
def Oop.executar (cc : ContaCorrente) (ops : List (TransacaoBancaria × String)) :
    ContaCorrente :=
  ops.foldl (fun acc op => Oop.realizar_transacao acc op.1 op.2) cc

/-- The menu loop of the Dh file applied to one account. -/
def Dh.executar (cc : ContaCorrente) (ops : List (TransacaoBancaria × String)) :
    ContaCorrente :=
  ops.foldl (fun acc op => Dh.realizar_transacao acc op.1 op.2) cc

/-! ### Helper lemmas shared by the claim theorems -/

/-- A withdrawal that fails leaves an Oop plain account exactly as it was. -/
lemma oop_conta_sacar_false (c : Conta) (v : Int)
    (h : (Oop.Conta.sacar c v).1 = false) : (Oop.Conta.sacar c v).2 = c := by
  unfold Oop.Conta.sacar Oop.Conta.sacarEx at *
  split_ifs at * <;> simp_all

/-- A withdrawal that fails leaves a Dh plain account exactly as it was. -/
lemma dh_conta_sacar_false (c : Conta) (v : Int)
    (h : (Dh.Conta.sacar c v).1 = false) : (Dh.Conta.sacar c v).2 = c := by
  unfold Dh.Conta.sacar Dh.Conta.sacarEx at *
  split_ifs at * <;> simp_all

/-- A withdrawal that fails leaves an Oop checking account exactly as it was. -/
lemma oop_cc_sacar_false (cc : ContaCorrente) (v : Int)
    (h : (Oop.ContaCorrente.sacar cc v).1 = false) :
    (Oop.ContaCorrente.sacar cc v).2 = cc := by
  unfold Oop.ContaCorrente.sacar Oop.ContaCorrente.sacarEx Oop.Conta.sacarEx at *
  split_ifs at * <;> simp_all

/-- A withdrawal that fails leaves a Dh checking account exactly as it was. -/
lemma dh_cc_sacar_false (cc : ContaCorrente) (v : Int)
    (h : (Dh.ContaCorrente.sacar cc v).1 = false) :
    (Dh.ContaCorrente.sacar cc v).2 = cc := by
  unfold Dh.ContaCorrente.sacar Dh.ContaCorrente.sacarEx Dh.Conta.sacarEx at *
  split_ifs at * <;> simp_all

/-- `sacar` on an Oop checking account never touches the history. -/
lemma oop_cc_sacar_historico (cc : ContaCorrente) (v : Int) :
    (Oop.ContaCorrente.sacar cc v).2.conta.historico = cc.conta.historico := by
  unfold Oop.ContaCorrente.sacar Oop.ContaCorrente.sacarEx Oop.Conta.sacarEx
  split_ifs <;> simp

/-- `sacar` on a Dh checking account never touches the history. -/
lemma dh_cc_sacar_historico (cc : ContaCorrente) (v : Int) :
    (Dh.ContaCorrente.sacar cc v).2.conta.historico = cc.conta.historico := by
  unfold Dh.ContaCorrente.sacar Dh.ContaCorrente.sacarEx Dh.Conta.sacarEx
  split_ifs <;> simp

/-- `depositar` never touches the history. -/
lemma cc_depositar_historico (cc : ContaCorrente) (v : Int) :
    (ContaCorrente.depositar cc v).2.conta.historico = cc.conta.historico := by
  unfold ContaCorrente.depositar Conta.depositar
  split_ifs <;> simp

/-- A deposit that fails leaves the checking account exactly as it was. -/
lemma cc_depositar_false (cc : ContaCorrente) (v : Int)
    (h : (ContaCorrente.depositar cc v).1 = false) :
    (ContaCorrente.depositar cc v).2 = cc := by
  unfold ContaCorrente.depositar Conta.depositar at *
  split_ifs at * <;> simp_all

/-- A non-positive amount makes the Oop checking `sacar` fail without
mutation. -/
lemma oop_cc_sacar_nonpos (cc : ContaCorrente) (v : Int) (h : v ≤ 0) :
    Oop.ContaCorrente.sacar cc v = (false, cc) := by
  unfold Oop.ContaCorrente.sacar Oop.ContaCorrente.sacarEx Oop.Conta.sacarEx
  split_ifs <;> first | rfl | omega

/-- A non-positive amount makes the Dh checking `sacar` fail without
mutation. -/
lemma dh_cc_sacar_nonpos (cc : ContaCorrente) (v : Int) (h : v ≤ 0) :
    Dh.ContaCorrente.sacar cc v = (false, cc) := by
  unfold Dh.ContaCorrente.sacar Dh.ContaCorrente.sacarEx Dh.Conta.sacarEx
  split_ifs <;> first | rfl | omega

/-- A non-positive amount makes `depositar` fail without mutation. -/
lemma cc_depositar_nonpos (cc : ContaCorrente) (v : Int) (h : v ≤ 0) :
    ContaCorrente.depositar cc v = (false, cc) := by
  unfold ContaCorrente.depositar Conta.depositar
  split_ifs <;> first | rfl | omega

/-- `sacar` on an Oop checking account keeps the balance non-negative. -/
lemma oop_cc_sacar_nonneg (cc : ContaCorrente) (v : Int)
    (h : 0 ≤ cc.conta.saldo) :
    0 ≤ (Oop.ContaCorrente.sacar cc v).2.conta.saldo := by
  unfold Oop.ContaCorrente.sacar Oop.ContaCorrente.sacarEx Oop.Conta.sacarEx
  split_ifs <;> simp <;> omega

/-- `sacar` on a Dh checking account keeps the balance non-negative. -/
lemma dh_cc_sacar_nonneg (cc : ContaCorrente) (v : Int)
    (h : 0 ≤ cc.conta.saldo) :
    0 ≤ (Dh.ContaCorrente.sacar cc v).2.conta.saldo := by
  unfold Dh.ContaCorrente.sacar Dh.ContaCorrente.sacarEx Dh.Conta.sacarEx
  split_ifs <;> simp <;> omega

/-- `depositar` keeps the balance non-negative. -/
lemma cc_depositar_nonneg (cc : ContaCorrente) (v : Int)
    (h : 0 ≤ cc.conta.saldo) :
    0 ≤ (ContaCorrente.depositar cc v).2.conta.saldo := by
  unfold ContaCorrente.depositar Conta.depositar
  split_ifs <;> simp <;> omega

/-- Recording a successful Oop withdrawal changes the balance exactly as
`sacar` did: the history append has no effect on it. -/
lemma oop_saque_registrar_saldo (s : Saque) (cc : ContaCorrente) (data : String) :
    (Oop.Saque.registrar s cc data).conta.saldo =
      (Oop.ContaCorrente.sacar cc s.valor).2.conta.saldo := by
  unfold Oop.Saque.registrar
  rcases h : Oop.ContaCorrente.sacar cc s.valor with ⟨b, cc2⟩
  cases b <;> simp

/-- Recording a successful Dh withdrawal changes the balance exactly as
`sacar` did. -/
lemma dh_saque_registrar_saldo (s : Saque) (cc : ContaCorrente) (data : String) :
    (Dh.Saque.registrar s cc data).conta.saldo =
      (Dh.ContaCorrente.sacar cc s.valor).2.conta.saldo := by
  unfold Dh.Saque.registrar
  rcases h : Dh.ContaCorrente.sacar cc s.valor with ⟨b, cc2⟩
  cases b <;> simp

/-- Recording a successful deposit changes the balance exactly as
`depositar` did. -/
lemma deposito_registrar_saldo (d : Deposito) (cc : ContaCorrente) (data : String) :
    (Deposito.registrar d cc data).conta.saldo =
      (ContaCorrente.depositar cc d.valor).2.conta.saldo := by
  unfold Deposito.registrar
  rcases h : ContaCorrente.depositar cc d.valor with ⟨b, cc2⟩
  cases b <;> simp

/-- One `realizar_transacao` step of the Oop file keeps the balance
non-negative. -/
lemma oop_realizar_nonneg (cc : ContaCorrente) (t : TransacaoBancaria)
    (data : String) (h : 0 ≤ cc.conta.saldo) :
    0 ≤ (Oop.realizar_transacao cc t data).conta.saldo := by
  cases t with
  | saque s =>
    rw [Oop.realizar_transacao, oop_saque_registrar_saldo]
    exact oop_cc_sacar_nonneg cc s.valor h
  | deposito d =>
    rw [Oop.realizar_transacao, deposito_registrar_saldo]
    exact cc_depositar_nonneg cc d.valor h

/-- One `realizar_transacao` step of the Dh file keeps the balance
non-negative. -/
lemma dh_realizar_nonneg (cc : ContaCorrente) (t : TransacaoBancaria)
    (data : String) (h : 0 ≤ cc.conta.saldo) :
    0 ≤ (Dh.realizar_transacao cc t data).conta.saldo := by
  cases t with
  | saque s =>
    rw [Dh.realizar_transacao, dh_saque_registrar_saldo]
    exact dh_cc_sacar_nonneg cc s.valor h
  | deposito d =>
    rw [Dh.realizar_transacao, deposito_registrar_saldo]
    exact cc_depositar_nonneg cc d.valor h

/-- Any sequence of Oop transactions keeps a non-negative balance
non-negative. -/
lemma oop_executar_nonneg (ops : List (TransacaoBancaria × String)) :
    ∀ cc : ContaCorrente, 0 ≤ cc.conta.saldo →
      0 ≤ (Oop.executar cc ops).conta.saldo := by
  induction ops with
  | nil => intro cc h; exact h
  | cons op rest ih =>
    intro cc h
    exact ih _ (oop_realizar_nonneg cc op.1 op.2 h)

/-- Any sequence of Dh transactions keeps a non-negative balance
non-negative. -/
lemma dh_executar_nonneg (ops : List (TransacaoBancaria × String)) :
    ∀ cc : ContaCorrente, 0 ≤ cc.conta.saldo →
      0 ≤ (Dh.executar cc ops).conta.saldo := by
  induction ops with
  | nil => intro cc h; exact h
  | cons op rest ih =>
    intro cc h
    exact ih _ (dh_realizar_nonneg cc op.1 op.2 h)

/-- Concrete customer used by the closed witness statements (the one the Oop
file's self-test builds). -/
def clienteTeste : Cliente := ⟨"Rua A, 123"⟩

/-- Concrete plain account used by the closed witness statements. -/
def contaTeste : Conta := Conta.nova_conta clienteTeste 1001

/-- Concrete checking account with the default limits. -/
def ccTeste : ContaCorrente := ContaCorrente.nova_conta clienteTeste 1001 500 3

/-- `ccTeste` after a deposit of 1000 and three successful withdrawals of
200: its history holds exactly `limite_saques` withdrawals. -/
def ccEsgotada : ContaCorrente :=
  Oop.executar ccTeste
    [(TransacaoBancaria.deposito ⟨1000⟩, "t1"),
      (TransacaoBancaria.saque ⟨200⟩, "t2"),
      (TransacaoBancaria.saque ⟨200⟩, "t3"),
      (TransacaoBancaria.saque ⟨200⟩, "t4")]

/-! ### Claim theorems -/

/-- C1: on a plain account with balance B, `sacar` with 0 < a ≤ B succeeds
and leaves balance B − a (history and all other fields untouched); with
a > B it fails and leaves the account unchanged.  Proved for the `Conta.sacar`
of both files. -/
theorem conta_sacar_spec (c : Conta) (a : Int) :
    (0 < a → a ≤ c.saldo →
      Oop.Conta.sacar c a = (true, { c with saldo := c.saldo - a }) ∧
      Dh.Conta.sacar c a = (true, { c with saldo := c.saldo - a })) ∧
    (a > c.saldo →
      Oop.Conta.sacar c a = (false, c) ∧
      Dh.Conta.sacar c a = (false, c)) := by
  constructor
  · intro h1 h2
    constructor
    · unfold Oop.Conta.sacar Oop.Conta.sacarEx
      split_ifs <;> first | rfl | omega
    · unfold Dh.Conta.sacar Dh.Conta.sacarEx
      split_ifs <;> first | rfl | omega
  · intro h1
    constructor
    · unfold Oop.Conta.sacar Oop.Conta.sacarEx
      split_ifs <;> first | rfl | omega
    · unfold Dh.Conta.sacar Dh.Conta.sacarEx
      split_ifs <;> first | rfl | omega

/-- Closed instance of `conta_sacar_spec`: on a balance of 1000, withdrawing
200 succeeds leaving 800, and withdrawing 1200 fails leaving the account
unchanged. -/
theorem conta_sacar_spec_witness :
    (Oop.Conta.sacar (Conta.depositar contaTeste 1000).2 200 =
      (true, { (Conta.depositar contaTeste 1000).2 with
        saldo := (Conta.depositar contaTeste 1000).2.saldo - 200 }) ∧
      Dh.Conta.sacar (Conta.depositar contaTeste 1000).2 200 =
      (true, { (Conta.depositar contaTeste 1000).2 with
        saldo := (Conta.depositar contaTeste 1000).2.saldo - 200 })) ∧
    (Oop.Conta.sacar (Conta.depositar contaTeste 1000).2 1200 =
      (false, (Conta.depositar contaTeste 1000).2) ∧
      Dh.Conta.sacar (Conta.depositar contaTeste 1000).2 1200 =
      (false, (Conta.depositar contaTeste 1000).2)) :=
  ⟨(conta_sacar_spec (Conta.depositar contaTeste 1000).2 200).1
      (by decide) (by decide),
    (conta_sacar_spec (Conta.depositar contaTeste 1000).2 1200).2 (by decide)⟩

/-- C2: `depositar` with a ≤ 0 fails and leaves the account (balance and
history) unchanged; with a > 0 it succeeds and adds exactly a to the balance,
leaving the history untouched.  The full-record equalities show that no field
other than `saldo` changes; stated for `Conta.depositar` and for the method
inherited by `ContaCorrente`. -/
theorem depositar_spec (c : Conta) (cc : ContaCorrente) (a : Int) :
    (a ≤ 0 → Conta.depositar c a = (false, c)) ∧
    (0 < a → Conta.depositar c a = (true, { c with saldo := c.saldo + a })) ∧
    (a ≤ 0 → ContaCorrente.depositar cc a = (false, cc)) ∧
    (0 < a → ContaCorrente.depositar cc a =
      (true, { cc with conta := { cc.conta with saldo := cc.conta.saldo + a } })) := by
  refine ⟨fun h => ?_, fun h => ?_, fun h => ?_, fun h => ?_⟩ <;>
    simp only [ContaCorrente.depositar, Conta.depositar] <;>
    split_ifs <;> first | rfl | omega

/-- Closed instance of `depositar_spec`: depositing −3 fails without
mutation; depositing 5 yields balance 5 on the fresh test account. -/
theorem depositar_spec_witness :
    Conta.depositar contaTeste (-3) = (false, contaTeste) ∧
    Conta.depositar contaTeste 5 =
      (true, { contaTeste with saldo := contaTeste.saldo + 5 }) ∧
    ContaCorrente.depositar ccTeste (-3) = (false, ccTeste) ∧
    ContaCorrente.depositar ccTeste 5 =
      (true, { ccTeste with conta := { ccTeste.conta with
        saldo := ccTeste.conta.saldo + 5 } }) :=
  ⟨(depositar_spec contaTeste ccTeste (-3)).1 (by decide),
    (depositar_spec contaTeste ccTeste 5).2.1 (by decide),
    (depositar_spec contaTeste ccTeste (-3)).2.2.1 (by decide),
    (depositar_spec contaTeste ccTeste 5).2.2.2 (by decide)⟩

/-- C4: on a checking account with per-withdrawal limit L, `sacar` with
a > L fails and leaves the account unchanged, whatever the balance and the
withdrawal count are.  Proved for both files. -/
theorem limite_por_saque_spec (cc : ContaCorrente) (a : Int)
    (h : a > cc.limite) :
    Oop.ContaCorrente.sacar cc a = (false, cc) ∧
    Dh.ContaCorrente.sacar cc a = (false, cc) := by
  constructor
  · unfold Oop.ContaCorrente.sacar Oop.ContaCorrente.sacarEx
    split_ifs <;> first | rfl | omega
  · unfold Dh.ContaCorrente.sacar Dh.ContaCorrente.sacarEx
    split_ifs <;> first | rfl | omega

/-- Closed instance of `limite_por_saque_spec`: withdrawing 600 from the
default checking account (limit 500) fails without mutation. -/
theorem limite_por_saque_spec_witness :
    Oop.ContaCorrente.sacar ccTeste 600 = (false, ccTeste) ∧
    Dh.ContaCorrente.sacar ccTeste 600 = (false, ccTeste) :=
  limite_por_saque_spec ccTeste 600 (by decide)

/-- C8: applying a transaction through `registrar` appends exactly one
history entry when the underlying `sacar`/`depositar` call returns true, and
leaves the history unchanged when it returns false.  Stated for `Saque` in
both files and for the shared `Deposito`. -/
theorem historico_registro_spec (cc : ContaCorrente) (s : Saque)
    (d : Deposito) (data : String) :
    (Oop.Saque.registrar s cc data).conta.historico.transacoes.length =
      (if (Oop.ContaCorrente.sacar cc s.valor).1 then
        cc.conta.historico.transacoes.length + 1
      else cc.conta.historico.transacoes.length) ∧
    (Dh.Saque.registrar s cc data).conta.historico.transacoes.length =
      (if (Dh.ContaCorrente.sacar cc s.valor).1 then
        cc.conta.historico.transacoes.length + 1
      else cc.conta.historico.transacoes.length) ∧
    (Deposito.registrar d cc data).conta.historico.transacoes.length =
      (if (ContaCorrente.depositar cc d.valor).1 then
        cc.conta.historico.transacoes.length + 1
      else cc.conta.historico.transacoes.length) := by
  refine ⟨?_, ?_, ?_⟩
  · have hh := oop_cc_sacar_historico cc s.valor
    unfold Oop.Saque.registrar
    rcases h : Oop.ContaCorrente.sacar cc s.valor with ⟨b, cc2⟩
    rw [h] at hh
    simp at hh
    cases b <;> simp [h, Historico.adicionar_transacao, hh]
  · have hh := dh_cc_sacar_historico cc s.valor
    unfold Dh.Saque.registrar
    rcases h : Dh.ContaCorrente.sacar cc s.valor with ⟨b, cc2⟩
    rw [h] at hh
    simp at hh
    cases b <;> simp [h, Historico.adicionar_transacao, hh]
  · have hh := cc_depositar_historico cc d.valor
    unfold Deposito.registrar
    rcases h : ContaCorrente.depositar cc d.valor with ⟨b, cc2⟩
    rw [h] at hh
    simp at hh
    cases b <;> simp [h, Historico.adicionar_transacao, hh]

/-- C10: every account built by the constructor or the `nova_conta` factory
starts with balance 0, branch code 0001 and an empty history, for every
customer, account number and configured limits; the factory returns exactly
what the constructor builds. -/
theorem conta_inicial_spec (cliente : Cliente) (numero limite : Int)
    (ls : Nat) :
    (Conta.init numero cliente).saldo = 0 ∧
    (Conta.init numero cliente).agencia = "0001" ∧
    (Conta.init numero cliente).historico.transacoes = [] ∧
    Conta.nova_conta cliente numero = Conta.init numero cliente ∧
    (ContaCorrente.nova_conta cliente numero limite ls).conta.saldo = 0 ∧
    (ContaCorrente.nova_conta cliente numero limite ls).conta.agencia = "0001" ∧
    (ContaCorrente.nova_conta cliente numero limite ls).conta.historico.transacoes = [] ∧
    ContaCorrente.nova_conta cliente numero limite ls =
      ContaCorrente.init numero cliente limite ls :=
  ⟨rfl, rfl, rfl, rfl, rfl, rfl, rfl, rfl⟩

/-- C3: on a checking account whose history already records as many
`"Saque"` entries as `limite_saques`, the next `sacar` fails and leaves the
account unchanged even when the amount is within both the balance and the
per-withdrawal limit; and a failed attempt routed through `registrar` does
not increase the recorded withdrawal count (only applied withdrawals are
counted).  Proved for both files. -/
theorem limite_saques_atingido_spec (cc : ContaCorrente) (a : Int)
    (s : Saque) (data : String) :
    (numero_saques cc.conta.historico = cc.limite_saques →
      a ≤ cc.limite → a ≤ cc.conta.saldo →
      Oop.ContaCorrente.sacar cc a = (false, cc) ∧
      Dh.ContaCorrente.sacar cc a = (false, cc)) ∧
    ((Oop.ContaCorrente.sacar cc s.valor).1 = false →
      numero_saques (Oop.Saque.registrar s cc data).conta.historico =
        numero_saques cc.conta.historico) ∧
    ((Dh.ContaCorrente.sacar cc s.valor).1 = false →
      numero_saques (Dh.Saque.registrar s cc data).conta.historico =
        numero_saques cc.conta.historico) := by
  refine ⟨fun h1 h2 h3 => ⟨?_, ?_⟩, fun h => ?_, fun h => ?_⟩
  · unfold Oop.ContaCorrente.sacar Oop.ContaCorrente.sacarEx Oop.Conta.sacarEx
    split_ifs <;> first | rfl | omega
  · unfold Dh.ContaCorrente.sacar Dh.ContaCorrente.sacarEx Dh.Conta.sacarEx
    split_ifs <;> first | rfl | omega
  · have hfix := oop_cc_sacar_false cc s.valor h
    unfold Oop.Saque.registrar
    rcases hs : Oop.ContaCorrente.sacar cc s.valor with ⟨b, cc2⟩
    rw [hs] at h hfix
    simp at h hfix
    subst h
    simp [hfix]
  · have hfix := dh_cc_sacar_false cc s.valor h
    unfold Dh.Saque.registrar
    rcases hs : Dh.ContaCorrente.sacar cc s.valor with ⟨b, cc2⟩
    rw [hs] at h hfix
    simp at h hfix
    subst h
    simp [hfix]

/-- Closed instance of `limite_saques_atingido_spec`: on the account that
already holds three recorded withdrawals, withdrawing 100 (within balance 400
and limit 500) fails without mutation; and a failed attempt (900 > limit) on
the fresh account leaves the withdrawal count at 0. -/
theorem limite_saques_atingido_spec_witness :
    (Oop.ContaCorrente.sacar ccEsgotada 100 = (false, ccEsgotada) ∧
      Dh.ContaCorrente.sacar ccEsgotada 100 = (false, ccEsgotada)) ∧
    numero_saques (Oop.Saque.registrar ⟨900⟩ ccTeste "t9").conta.historico =
      numero_saques ccTeste.conta.historico ∧
    numero_saques (Dh.Saque.registrar ⟨900⟩ ccTeste "t9").conta.historico =
      numero_saques ccTeste.conta.historico :=
  ⟨(limite_saques_atingido_spec ccEsgotada 100 ⟨900⟩ "t9").1
      (by decide) (by decide) (by decide),
    (limite_saques_atingido_spec ccTeste 100 ⟨900⟩ "t9").2.1 (by decide),
    (limite_saques_atingido_spec ccTeste 100 ⟨900⟩ "t9").2.2 (by decide)⟩

/-- C5: starting from a freshly created account, every sequence of
transactions (deposits and withdrawals routed through `realizar_transacao`
and `registrar`) keeps the balance non-negative, in both files; and the
history-recording step of `registrar` never changes the balance — the balance
after `registrar` is exactly the balance `sacar`/`depositar` produced. -/
theorem saldo_nao_negativo_spec (cliente : Cliente) (numero limite : Int)
    (ls : Nat) (ops : List (TransacaoBancaria × String)) (cc : ContaCorrente)
    (s : Saque) (d : Deposito) (data : String) :
    0 ≤ (Oop.executar (ContaCorrente.nova_conta cliente numero limite ls) ops).conta.saldo ∧
    0 ≤ (Dh.executar (ContaCorrente.nova_conta cliente numero limite ls) ops).conta.saldo ∧
    (Oop.Saque.registrar s cc data).conta.saldo =
      (Oop.ContaCorrente.sacar cc s.valor).2.conta.saldo ∧
    (Dh.Saque.registrar s cc data).conta.saldo =
      (Dh.ContaCorrente.sacar cc s.valor).2.conta.saldo ∧
    (Deposito.registrar d cc data).conta.saldo =
      (ContaCorrente.depositar cc d.valor).2.conta.saldo :=
  ⟨oop_executar_nonneg ops _ (le_refl 0),
    dh_executar_nonneg ops _ (le_refl 0),
    oop_saque_registrar_saldo s cc data,
    dh_saque_registrar_saldo s cc data,
    deposito_registrar_saldo d cc data⟩

/-- C6 amended: the order in which `sacar` reports failure reasons.  On the
checking variant the per-withdrawal limit is checked first, then the
withdrawal count, and only then the base checks run: an amount over both
balance and limit reports the limit reason, and a non-positive amount with an
exhausted count reports the count reason.  In the base account the two files
differ: the Oop file checks invalid amount first, the Dh file checks
insufficient funds first. -/
theorem ordem_validacao_spec (cc : ContaCorrente) (c : Conta) (a : Int) :
    (a > cc.limite →
      (Oop.ContaCorrente.sacarEx cc a).1 = some MotivoFalha.limiteExcedido ∧
      (Dh.ContaCorrente.sacarEx cc a).1 = some MotivoFalha.limiteExcedido) ∧
    (a ≤ cc.limite → numero_saques cc.conta.historico ≥ cc.limite_saques →
      (Oop.ContaCorrente.sacarEx cc a).1 = some MotivoFalha.saquesExcedidos ∧
      (Dh.ContaCorrente.sacarEx cc a).1 = some MotivoFalha.saquesExcedidos) ∧
    (a ≤ cc.limite → numero_saques cc.conta.historico < cc.limite_saques →
      a ≤ 0 →
      (Oop.ContaCorrente.sacarEx cc a).1 = some MotivoFalha.valorInvalido) ∧
    (a ≤ cc.limite → numero_saques cc.conta.historico < cc.limite_saques →
      a > cc.conta.saldo →
      (Dh.ContaCorrente.sacarEx cc a).1 = some MotivoFalha.saldoInsuficiente) ∧
    (a ≤ 0 → (Oop.Conta.sacarEx c a).1 = some MotivoFalha.valorInvalido) ∧
    (a > c.saldo → (Dh.Conta.sacarEx c a).1 = some MotivoFalha.saldoInsuficiente) := by
  refine ⟨fun h1 => ⟨?_, ?_⟩, fun h1 h2 => ⟨?_, ?_⟩, fun h1 h2 h3 => ?_,
      fun h1 h2 h3 => ?_, fun h1 => ?_, fun h1 => ?_⟩ <;>
    simp only [Oop.ContaCorrente.sacarEx, Dh.ContaCorrente.sacarEx,
      Oop.Conta.sacarEx, Dh.Conta.sacarEx] <;>
    split_ifs <;> first | rfl | omega

/-- Closed instance of `ordem_validacao_spec`, exercising every branch on
concrete accounts. -/
theorem ordem_validacao_spec_witness :
    ((Oop.ContaCorrente.sacarEx ccTeste 600).1 = some MotivoFalha.limiteExcedido ∧
      (Dh.ContaCorrente.sacarEx ccTeste 600).1 = some MotivoFalha.limiteExcedido) ∧
    ((Oop.ContaCorrente.sacarEx ccEsgotada 100).1 = some MotivoFalha.saquesExcedidos ∧
      (Dh.ContaCorrente.sacarEx ccEsgotada 100).1 = some MotivoFalha.saquesExcedidos) ∧
    (Oop.ContaCorrente.sacarEx ccTeste (-5)).1 = some MotivoFalha.valorInvalido ∧
    (Dh.ContaCorrente.sacarEx ccTeste 100).1 = some MotivoFalha.saldoInsuficiente ∧
    (Oop.Conta.sacarEx contaTeste (-5)).1 = some MotivoFalha.valorInvalido ∧
    (Dh.Conta.sacarEx contaTeste 100).1 = some MotivoFalha.saldoInsuficiente :=
  ⟨(ordem_validacao_spec ccTeste contaTeste 600).1 (by decide),
    (ordem_validacao_spec ccEsgotada contaTeste 100).2.1 (by decide) (by decide),
    (ordem_validacao_spec ccTeste contaTeste (-5)).2.2.1
      (by decide) (by decide) (by decide),
    (ordem_validacao_spec ccTeste contaTeste 100).2.2.2.1
      (by decide) (by decide) (by decide),
    (ordem_validacao_spec ccTeste contaTeste (-5)).2.2.2.2.1 (by decide),
    (ordem_validacao_spec ccTeste contaTeste 100).2.2.2.2.2 (by decide)⟩

/-- C6 as frozen is false on the code: on the fresh checking account a
withdrawal of 600 exceeds both the balance (0) and the limit (500), yet the
reported reason is the limit one, not insufficient funds; and on the account
with an exhausted withdrawal count a withdrawal of 0 (an invalid amount)
reports the count reason, not the invalid-amount one. -/
theorem ordem_validacao_contraexemplo :
    ((600:Int) > ccTeste.conta.saldo ∧ (600:Int) > ccTeste.limite ∧
      (Dh.ContaCorrente.sacarEx ccTeste 600).1 ≠ some MotivoFalha.saldoInsuficiente ∧
      (Oop.ContaCorrente.sacarEx ccTeste 600).1 ≠ some MotivoFalha.saldoInsuficiente ∧
      (Dh.ContaCorrente.sacarEx ccTeste 600).1 = some MotivoFalha.limiteExcedido) ∧
    ((0:Int) ≤ 0 ∧
      numero_saques ccEsgotada.conta.historico ≥ ccEsgotada.limite_saques ∧
      (Oop.ContaCorrente.sacarEx ccEsgotada 0).1 ≠ some MotivoFalha.valorInvalido ∧
      (Dh.ContaCorrente.sacarEx ccEsgotada 0).1 ≠ some MotivoFalha.valorInvalido ∧
      (Oop.ContaCorrente.sacarEx ccEsgotada 0).1 = some MotivoFalha.saquesExcedidos) := by
  decide

/-- C7 amended: `Saque.__init__` and `Deposito.__init__` perform no
validation at all — a transaction value with a non-positive amount is
constructed and stores that amount unchanged; the amount check happens only
at the account level, where registering such a transaction fails and leaves
the account untouched. -/
theorem construcao_transacao_spec (v : Int) (cc : ContaCorrente)
    (data : String) (h : v ≤ 0) :
    (Saque.mk v).valor = v ∧ (Deposito.mk v).valor = v ∧
    Oop.Saque.registrar (Saque.mk v) cc data = cc ∧
    Dh.Saque.registrar (Saque.mk v) cc data = cc ∧
    Deposito.registrar (Deposito.mk v) cc data = cc := by
  refine ⟨rfl, rfl, ?_, ?_, ?_⟩
  · unfold Oop.Saque.registrar
    rw [show (Saque.mk v).valor = v from rfl, oop_cc_sacar_nonpos cc v h]
  · unfold Dh.Saque.registrar
    rw [show (Saque.mk v).valor = v from rfl, dh_cc_sacar_nonpos cc v h]
  · unfold Deposito.registrar
    rw [show (Deposito.mk v).valor = v from rfl, cc_depositar_nonpos cc v h]

/-- Closed instance of `construcao_transacao_spec` at amount −7. -/
theorem construcao_transacao_spec_witness :
    (Saque.mk (-7)).valor = -7 ∧ (Deposito.mk (-7)).valor = -7 ∧
    Oop.Saque.registrar (Saque.mk (-7)) ccTeste "t7" = ccTeste ∧
    Dh.Saque.registrar (Saque.mk (-7)) ccTeste "t7" = ccTeste ∧
    Deposito.registrar (Deposito.mk (-7)) ccTeste "t7" = ccTeste :=
  construcao_transacao_spec (-7) ccTeste "t7" (by decide)

/-- C7 as frozen is false on the code: `Saque(-5)` and `Deposito(-5)` are
constructed without any rejection — the value exists and stores −5 — so a
transaction with a non-positive amount can be created; only the account-level
check later refuses to apply it. -/
theorem construcao_transacao_contraexemplo :
    (Saque.mk (-5)).valor = -5 ∧ (Deposito.mk (-5)).valor = -5 ∧
    Oop.Saque.registrar (Saque.mk (-5)) ccTeste "t5" = ccTeste ∧
    Dh.Saque.registrar (Saque.mk (-5)) ccTeste "t5" = ccTeste ∧
    Deposito.registrar (Deposito.mk (-5)) ccTeste "t5" = ccTeste := by
  decide

/-- C9 amended: depositing a then withdrawing a restores the original
balance on a plain account whenever 0 < a and a ≤ B + a; on a checking
account the same holds provided additionally a is within the per-withdrawal
limit and the withdrawal count is not exhausted (without those two side
conditions the withdrawal leg fails and the balance stays B + a, see the
counterexample). -/
theorem ida_e_volta_spec (c : Conta) (cc : ContaCorrente) (a : Int) :
    (0 < a → a ≤ c.saldo + a →
      (Oop.Conta.sacar (Conta.depositar c a).2 a).2.saldo = c.saldo ∧
      (Dh.Conta.sacar (Conta.depositar c a).2 a).2.saldo = c.saldo) ∧
    (0 < a → a ≤ cc.conta.saldo + a → a ≤ cc.limite →
      numero_saques cc.conta.historico < cc.limite_saques →
      (Oop.ContaCorrente.sacar (ContaCorrente.depositar cc a).2 a).2.conta.saldo =
        cc.conta.saldo ∧
      (Dh.ContaCorrente.sacar (ContaCorrente.depositar cc a).2 a).2.conta.saldo =
        cc.conta.saldo) := by
  constructor
  · intro h1 h2
    constructor
    · simp only [Conta.depositar, Oop.Conta.sacar, Oop.Conta.sacarEx]
      split_ifs <;> simp_all <;> omega
    · simp only [Conta.depositar, Dh.Conta.sacar, Dh.Conta.sacarEx]
      split_ifs <;> simp_all <;> omega
  · intro h1 h2 h3 h4
    constructor
    · simp only [ContaCorrente.depositar, Conta.depositar,
        Oop.ContaCorrente.sacar, Oop.ContaCorrente.sacarEx, Oop.Conta.sacarEx]
      split_ifs <;> simp_all <;> omega
    · simp only [ContaCorrente.depositar, Conta.depositar,
        Dh.ContaCorrente.sacar, Dh.ContaCorrente.sacarEx, Dh.Conta.sacarEx]
      split_ifs <;> simp_all <;> omega

/-- Closed instance of `ida_e_volta_spec` at amount 300 on the fresh
accounts. -/
theorem ida_e_volta_spec_witness :
    ((Oop.Conta.sacar (Conta.depositar contaTeste 300).2 300).2.saldo =
        contaTeste.saldo ∧
      (Dh.Conta.sacar (Conta.depositar contaTeste 300).2 300).2.saldo =
        contaTeste.saldo) ∧
    ((Oop.ContaCorrente.sacar (ContaCorrente.depositar ccTeste 300).2 300).2.conta.saldo =
        ccTeste.conta.saldo ∧
      (Dh.ContaCorrente.sacar (ContaCorrente.depositar ccTeste 300).2 300).2.conta.saldo =
        ccTeste.conta.saldo) :=
  ⟨(ida_e_volta_spec contaTeste ccTeste 300).1 (by decide) (by decide),
    (ida_e_volta_spec contaTeste ccTeste 300).2
      (by decide) (by decide) (by decide) (by decide)⟩

/-- C9 as frozen is false on the code: on the fresh checking account,
depositing 600 then withdrawing 600 satisfies 0 < 600 and
600 ≤ balance + 600, yet the withdrawal leg fails (600 exceeds the limit 500)
and the final balance is 600, not the original 0.  Both files agree. -/
theorem ida_e_volta_contraexemplo :
    (0:Int) < 600 ∧ (600:Int) ≤ ccTeste.conta.saldo + 600 ∧
    (Oop.ContaCorrente.sacar (ContaCorrente.depositar ccTeste 600).2 600).2.conta.saldo ≠
      ccTeste.conta.saldo ∧
    (Oop.ContaCorrente.sacar (ContaCorrente.depositar ccTeste 600).2 600).2.conta.saldo = 600 ∧
    (Dh.ContaCorrente.sacar (ContaCorrente.depositar ccTeste 600).2 600).2.conta.saldo ≠
      ccTeste.conta.saldo := by
  decide

end Banking
